import Mathlib

/-!
Shallow embedding of the aria2 Home Assistant integration
(custom_components/aria2): the command model (aria2_commands.py), the
WebSocket client (aria2_client.py), the connection-URL builder and the
constants (const.py), and the adaptive download-list coordinator
(__init__.py).  Machine-checked statements of the specification's
testable properties follow the definitions.
-/

/-! ## JSON values

A small model of the Python/JSON values that travel over the JSON-RPC
connection.  Partial Python operations (indexing, key lookup) are
modelled with `Option`. -/

inductive JVal where
  | null
  | bool (b : Bool)
  | num (n : Int)
  | str (s : String)
  | arr (elems : List JVal)
  | obj (fields : List (String × JVal))

/-- Python `value[0]` on a JSON value: the first element when the value is a
non-empty array, undefined (an exception) otherwise. -/
def JVal.index0 : JVal → Option JVal
  | .arr (x :: _) => some x
  | _ => none

/-- Python `value[key]` restricted to string fields: the string stored under
`key` when the value is an object carrying one, undefined otherwise. -/
def JVal.getStr (j : JVal) (key : String) : Option String :=
  match j with
  | .obj fields =>
    match fields.lookup key with
    | some (.str s) => some s
    | _ => none
  | _ => none

/-! ## const.py -/

/-- const.py: `WS_RETRY_DELAY_SECONDS = 3`. -/
def WS_RETRY_DELAY_SECONDS : Nat := 3

/-- const.py: `COORDINATOR_FAST_UPDATE_SECONDS = 3`. -/
def COORDINATOR_FAST_UPDATE_SECONDS : Nat := 3

/-- const.py: `COORDINATOR_SLOW_UPDATE_SECONDS = 30`. -/
def COORDINATOR_SLOW_UPDATE_SECONDS : Nat := 30

/-- const.py: `STATE_ACTIVE = "active"`. -/
def STATE_ACTIVE : String := "active"

/-- const.py: `STATE_STOPPED = "stopped"`. -/
def STATE_STOPPED : String := "stopped"

/-- Python `host.startswith(pre)`, expressed on the underlying character
lists so that prefix reasoning is available. -/
def pyStartsWith (host pre : String) : Bool :=
  pre.data.isPrefixOf host.data

/-- const.py `build_ws_url(host, port, secure_socket)`.  The source tests
`host.startswith('https')` / `host.startswith('http')` (without `://`) and
slices `host[8:]` / `host[7:]`; `f"...{port}..."` interpolation is string
concatenation (`port` is annotated `str` in the source). -/
def build_ws_url (host : String) (port : String) (secure_socket : Bool) : String :=
  if pyStartsWith host "https" then
    "wss://" ++ host.drop 8 ++ ":" ++ port ++ "/jsonrpc"
  else if pyStartsWith host "http" then
    "ws://" ++ host.drop 7 ++ ":" ++ port ++ "/jsonrpc"
  else if secure_socket then
    "wss://" ++ host ++ ":" ++ port ++ "/jsonrpc"
  else
    "ws://" ++ host ++ ":" ++ port ++ "/jsonrpc"

/-- The URL derivation as the specification words it: an *existing*
`http://`/`https://` scheme prefix on the host is normalized into
`ws://`/`wss://`, otherwise the secure flag picks the scheme; the fixed
RPC path `:<port>/jsonrpc` is appended. -/
def build_ws_url_spec (host : String) (port : String) (secure_socket : Bool) : String :=
  if pyStartsWith host "https://" then
    "wss://" ++ host.drop 8 ++ ":" ++ port ++ "/jsonrpc"
  else if pyStartsWith host "http://" then
    "ws://" ++ host.drop 7 ++ ":" ++ port ++ "/jsonrpc"
  else if secure_socket then
    "wss://" ++ host ++ ":" ++ port ++ "/jsonrpc"
  else
    "ws://" ++ host ++ ":" ++ port ++ "/jsonrpc"

/-! ## aria2_commands.py — the command model -/

/-- aria2_commands.py `AriaError(HomeAssistantError)`: the typed failure a
remote error envelope is decoded into. -/
structure AriaError where
  message : String
deriving DecidableEq

/-- Inbound JSON-RPC `error` object: `{"code": int, "message": string}`. -/
structure JErr where
  code : Int
  message : String
deriving DecidableEq

/-- Exceptions that can escape `result_received` / `error_received` into
their invoker (the receive loop): the `raise exception` branch of
`Command._raise_except`, or asyncio's `InvalidStateError` when a finished
future is resolved again. -/
inductive PyExc where
  | ariaError (message : String)
  | invalidState
deriving DecidableEq

/-- State of the `asyncio` future a `Command` holds in `result_future`:
pending (built by `build_awaitable_future`, caller awaiting), cancelled by
the caller, finished with a result, or finished with an exception
(always an `AriaError` in this code base). -/
inductive FutureState (T : Type) where
  | pending
  | cancelled
  | doneOk (value : T)
  | doneErr (message : String)
deriving DecidableEq

/-- aria2_commands.py `Command`: the mutable per-command state the resolution
paths touch — the id generated at construction and the optional
pending-result future (`None` until `build_awaitable_future` runs). The
method name and parameter list play no role in resolution and are kept
out of this record; the per-kind `get_result` decoder is passed explicitly
where Python dispatches on the dynamic class. -/
structure CmdState (T : Type) where
  id : String
  result_future : Option (FutureState T)
deriving DecidableEq

/-- aria2_commands.py `Command.result_received`: compute
`result = self.get_result(json)`; if a future exists and is not cancelled,
`set_result(result)` (on a finished future asyncio raises
`InvalidStateError`, the third component); the result is returned either
way. -/
def Command.result_received (get_result : JVal → T) (c : CmdState T) (json : JVal) :
    CmdState T × T × Option PyExc :=
  let result := get_result json
  match c.result_future with
  | some .pending => ({ c with result_future := some (.doneOk result) }, result, none)
  | some .cancelled => (c, result, none)
  | some (.doneOk _) => (c, result, some .invalidState)
  | some (.doneErr _) => (c, result, some .invalidState)
  | none => (c, result, none)

/-- aria2_commands.py `Command._raise_except`: if a future exists and is not
cancelled, `set_exception(exception)` (InvalidStateError on a finished
future); otherwise the exception is raised to the invoker. -/
def Command.raise_except (c : CmdState T) (exc : AriaError) : CmdState T × Option PyExc :=
  match c.result_future with
  | some .pending => ({ c with result_future := some (.doneErr exc.message) }, none)
  | some .cancelled => (c, some (.ariaError exc.message))
  | some (.doneOk _) => (c, some .invalidState)
  | some (.doneErr _) => (c, some .invalidState)
  | none => (c, some (.ariaError exc.message))

/-- aria2_commands.py `Command.error_received`: only an error object with
`code == 1` is converted (`AriaError(message)`) and handed to
`_raise_except`; any other code falls through the `if` and the method
returns without touching the future. -/
def Command.error_received (c : CmdState T) (json_error : JErr) : CmdState T × Option PyExc :=
  if json_error.code == 1 then
    Command.raise_except c ⟨json_error.message⟩
  else
    (c, none)

/-- aria2_commands.py `ChangeGlobalOptions.get_result`:
`json_result == "OK"` — Python equality of an arbitrary JSON value with the
string `"OK"`. -/
def ChangeGlobalOptions.get_result (json_result : JVal) : Bool :=
  match json_result with
  | .str s => s == "OK"
  | _ => false

/-- aria2_commands.py `ChangeGlobalOptions.error_received`:
`return self.result_received("KO")` — every error envelope is turned into a
normal resolution with the raw value `"KO"` (which decodes to `False`). -/
def ChangeGlobalOptions.error_received (c : CmdState Bool) (json_error : JErr) :
    CmdState Bool × Bool × Option PyExc :=
  Command.result_received ChangeGlobalOptions.get_result c (JVal.str "KO")

/-- aria2p `Download(None, struct)`: a thin wrapper over the raw JSON
struct; accessors read the struct's fields. -/
structure Download where
  struct : JVal

/-- aria2p `Download.status`: `struct["status"]`. -/
def Download.status (d : Download) : Option String :=
  d.struct.getStr "status"

/-- aria2p `Download.gid`: `struct["gid"]`. -/
def Download.gid (d : Download) : Option String :=
  d.struct.getStr "gid"

/-- aria2_commands.py `TellActive.get_result`:
`[Download(None, d) for d in json_result]` (iterating a non-list raw value
is a Python exception, modelled as `none`). -/
def TellActive.get_result (json_result : JVal) : Option (List Download) :=
  match json_result with
  | .arr ds => some (ds.map (fun d => ⟨d⟩))
  | _ => none

/-- aria2_commands.py `TellWaiting.get_result`: same decoding as
`TellActive`. -/
def TellWaiting.get_result (json_result : JVal) : Option (List Download) :=
  match json_result with
  | .arr ds => some (ds.map (fun d => ⟨d⟩))
  | _ => none

/-- aria2_commands.py `TellStopped.get_result`: same decoding as
`TellActive`. -/
def TellStopped.get_result (json_result : JVal) : Option (List Download) :=
  match json_result with
  | .arr ds => some (ds.map (fun d => ⟨d⟩))
  | _ => none

/-- A sub-command as `MultiCall` sees it: Python dispatches
`self.params[index].get_result` on the dynamic class of the stored command
object; here each sub-command carries its method name and its own result
decoder (a decoder that can fail returns an `Option`-valued `R`). -/
structure SubCommand (R : Type) where
  method_name : String
  get_result : JVal → R

/-- aria2_commands.py `MultiCall.get_result`: the comprehension
`[self.params[index].get_result(result[0]) for index, result in enumerate(json_result)]`
walks the raw entries in order, pairing entry `i` with sub-command `i`,
written as structural recursion.  `self.params[index]` past the end of the
sub-command list and `result[0]` on a non-array raw entry are Python
exceptions, modelled as `none`; entries beyond the end of `json_result`
are simply never visited, exactly as in the comprehension. -/
def MultiCall.get_result (params : List (SubCommand R)) (json_result : List JVal) :
    Option (List R) :=
  match params, json_result with
  | _, [] => some []
  | [], _ :: _ => none
  | c :: cs, r :: rs => do
    let r0 ← r.index0
    let rest ← MultiCall.get_result cs rs
    pure (c.get_result r0 :: rest)

/-! ## aria2_client.py — the WebSocket client -/

/-- An inbound notification frame
`{'method': ..., 'params': [{'gid': ...}]}`, reduced to the two fields the
client reads. -/
structure Notification where
  method : String
  gid : String
deriving DecidableEq

/-- aria2_client.py `listen_notifications`, notification branch: the literal
`status_mapping` table. -/
def status_mapping : List (String × String) :=
  [("aria2.onDownloadStart", "active"),
   ("aria2.onDownloadPause", "paused"),
   ("aria2.onDownloadStop", "stoped"),
   ("aria2.onDownloadComplete", "complete"),
   ("aria2.onDownloadError", "error")]

/-- aria2_client.py `listen_notifications`, notification branch: a frame
whose method is in `status_mapping` dispatches the `(gid, status)` pair to
the `download_state_updated` listeners; an unrecognized method is logged
(`unsuported aria method`) and dropped (`none`). -/
def handle_notification (n : Notification) : Option (String × String) :=
  match status_mapping.lookup n.method with
  | some status => some (n.gid, status)
  | none => none

/-- The `(gid, status)` pairs dispatched for a sequence of inbound
notification frames, in arrival order. -/
def process_notifications (ns : List Notification) : List (String × String) :=
  ns.filterMap handle_notification

/-- A registered listener: its registration index and its behaviour on one
`(gid, status)` dispatch — normal return or a raised exception. -/
structure Listener where
  idx : Nat
  run : String × String → Except String Unit

/-- aria2_client.py `call_listeners`: the listeners registered under one key
are invoked (and awaited) one after another, in registration order, inside
a single `for` loop; an exception raised by a listener aborts the loop and
propagates to the invoker (the receive loop).  Returns the indices of the
listeners that were invoked, in invocation order, and the propagated
exception if any. -/
def call_listeners : List Listener → String × String → List Nat × Option String
  | [], _ => ([], none)
  | l :: ls, args =>
    match l.run args with
    | .ok _ =>
      let r := call_listeners ls args
      (l.idx :: r.1, r.2)
    | .error e => ([l.idx], some e)

/-- How one pass of the `while True` loop of `listen_notifications` ends:
`asyncio.CancelledError` raised into the task, or any other exception from
the frame stream. -/
inductive IterEnd where
  | cancelled
  | failure (exc : String)
deriving DecidableEq

/-- Observable outcome of running the receive loop over a finite script:
whether the loop is still iterating, whether it closed the current
connection, how many times it (re)acquired a websocket through `get_ws`,
and the sleeps it performed, in order. -/
structure LoopResult where
  running : Bool
  closedConnection : Bool
  acquires : Nat
  sleeps : List Nat
deriving DecidableEq

/-- aria2_client.py `listen_notifications`, control skeleton: each pass of
the `while True` loop acquires a websocket via `get_ws` and iterates its
frames; the pass ends either with `asyncio.CancelledError` (the
`except asyncio.CancelledError` arm closes the websocket and `break`s out)
or with any other exception (the bare `except` arm logs, sleeps 3 seconds
and lets the loop restart).  `listen_notifications_run` plays a finite
script of pass endings; `running = true` means the loop is still iterating
after the script is exhausted (entries after a cancellation are
unreachable and ignored). -/
def listen_notifications_run : List IterEnd → LoopResult
  | [] => ⟨true, false, 0, []⟩
  | .cancelled :: _ => ⟨false, true, 1, []⟩
  | .failure _ :: rest =>
    let r := listen_notifications_run rest
    ⟨r.running, r.closedConnection, r.acquires + 1, 3 :: r.sleeps⟩

/-- Callers of `get_ws` are identified by an opaque index. -/
abbrev CallerId := Nat

/-- A physical websocket connection handle. -/
abbrev Handle := Nat

/-- aria2_client.py `WSClient` connection-management state: the fields of
`get_ws` (`ws`, `is_opening_socket`, `waiting_opening_socket_futures`),
plus instrumentation that the Python object keeps implicitly: whether the
stored socket is open (`self.ws.open`), which caller's `get_ws` owns the
in-flight `websockets.connect` attempt, and how many physical connect
attempts are currently in flight. -/
structure WSClientConn where
  ws : Option Handle
  wsOpen : Bool
  is_opening_socket : Bool
  connector : Option CallerId
  waiting_opening_socket_futures : List CallerId
  attemptsInFlight : Nat
deriving DecidableEq

/-- The freshly constructed client: no socket, no attempt, no waiters. -/
def WSClientConn.init : WSClientConn := ⟨none, false, false, none, [], 0⟩

/-- Events driving the connection state: a caller invokes `get_ws`
(running synchronously to its first suspension point), the in-flight
`websockets.connect` resolves or times out, or the environment closes the
stored socket. -/
inductive WSEv where
  | arrive (c : CallerId)
  | connectOk (h : Handle)
  | connectTimeout
  | socketClosed
deriving DecidableEq

/-- aria2_client.py `get_ws`, as one cooperative-scheduling step function.
`arrive c`: `if self.ws and self.ws.open` return it at once; `elif not
self.is_opening_socket` set the flag and start the physical connect (the
caller suspends on the `await`); `else` append a future to
`waiting_opening_socket_futures` and suspend on it.  `connectOk h`: the
code after the `await` runs without interleaving — store the socket, clear
the flag, `set_result(self.ws)` on every waiting future, reset the list,
and `return self.ws` to the connecting caller.  `connectTimeout`: the
`except` arm clears the flag and synchronously recurses into `get_ws`,
which re-sets the flag and starts a fresh attempt before any other task
can run, so the state is unchanged (one attempt ends as another begins).
`socketClosed`: the environment marks the stored socket as closed.
Returns the successor state and the `(caller, handle)` resolutions the
step produces. -/
def WSClientConn.step (s : WSClientConn) : WSEv → WSClientConn × List (CallerId × Handle)
  | .arrive c =>
    match s.ws, s.wsOpen with
    | some h, true => (s, [(c, h)])
    | _, _ =>
      if !s.is_opening_socket then
        ({ s with is_opening_socket := true, connector := some c,
                  attemptsInFlight := s.attemptsInFlight + 1 }, [])
      else
        ({ s with waiting_opening_socket_futures :=
                    s.waiting_opening_socket_futures ++ [c] }, [])
  | .connectOk h =>
    if s.is_opening_socket then
      (⟨some h, true, false, none, [], s.attemptsInFlight - 1⟩,
        (match s.connector with
         | some c0 => [(c0, h)]
         | none => []) ++ s.waiting_opening_socket_futures.map (fun c => (c, h)))
    else (s, [])
  | .connectTimeout => (s, [])
  | .socketClosed => ({ s with wsOpen := false }, [])

/-- The connection states reachable from a freshly constructed client under
any event sequence. -/
inductive WSReachable : WSClientConn → Prop where
  | init : WSReachable WSClientConn.init
  | step (s : WSClientConn) (e : WSEv) : WSReachable s → WSReachable (WSClientConn.step s e).1

/-! ## __init__.py — the adaptive download-list coordinator -/

/-- The piece of `DataUpdateCoordinator` state that `get_downloads`
mutates: the current refresh interval, in seconds. -/
structure CoordinatorState where
  update_interval : Nat
deriving DecidableEq

/-- __init__.py `get_downloads`, the pure core of one successful refresh
cycle: the MultiCall result is destructured into
`[active, waiting, stopped]`, concatenated into `downloads`, and the
coordinator's `update_interval` is set to the fast tier when
`len([d for d in downloads if d.status == STATE_ACTIVE]) > 0`, to the slow
tier otherwise.  Returns the payload (`downloads`) together with the
updated coordinator state. -/
def get_downloads (active waiting stopped : List Download) :
    List Download × CoordinatorState :=
  let downloads := active ++ waiting ++ stopped
  let active_downloads := downloads.filter (fun d => d.status == some STATE_ACTIVE)
  if active_downloads.length > 0 then
    (downloads, ⟨COORDINATOR_FAST_UPDATE_SECONDS⟩)
  else
    (downloads, ⟨COORDINATOR_SLOW_UPDATE_SECONDS⟩)

/-! ## The pending-result registry and response dispatch -/

/-- Modelled from the spec: the pending-result registry of the current
`WSClient.call`.  The `call` method and the response branch of its receive
loop are not among the sources here: src's aria2_client.py is an earlier
generation of the client with no command registry, while __init__.py,
sensor.py and config_flow.py all invoke `ws_client.call(command)`.
Spec §3/§4.3: a mapping from command id to the awaiting Command, with
insertion on send; `call` builds the command's awaitable future and
registers the command under its id before sending the serialized
envelope. -/
def call_send (reg : List (String × CmdState T)) (c : CmdState T) :
    List (String × CmdState T) :=
  reg ++ [(c.id, { c with result_future := some .pending })]

/-- An inbound frame carrying a non-null `id`: a success response with a
`result`, an error response with an `error` object, or a frame with
neither. -/
inductive Frame where
  | response (id : String) (result : JVal)
  | errorResponse (id : String) (error : JErr)
  | malformed (id : String)

/-- Removing the entry stored under `id` from the registry: the entry's
command and the remaining registry, or `none` when no entry matches. -/
def popCommand (id : String) : List (String × CmdState T) →
    Option (CmdState T × List (String × CmdState T))
  | [] => none
  | (i, c) :: rest =>
    if i == id then some (c, rest)
    else match popCommand id rest with
      | some (c0, rest0) => some (c0, (i, c) :: rest0)
      | none => none

/-- Modelled from the spec: the response branch of the current receive loop
(not among the sources here, see `call_send`).  Spec §4.3: a frame with a
non-null id matching a pending Command is popped from the registry and
resolved via `decodeResult` (success path) or `decodeError` (error path);
a frame with neither `result` nor `error` is logged as malformed and the
Command is left pending; an id with no matching pending Command is logged
and discarded.  Resolution itself is the source's
`Command.result_received` / `Command.error_received`.  Returns the new
registry, the popped command's final state (what the awaiting caller
observes), and any exception escaping into the receive loop. -/
def handle_frame (get_result : JVal → T) (reg : List (String × CmdState T)) :
    Frame → List (String × CmdState T) × Option (CmdState T) × Option PyExc
  | .response id raw =>
    match popCommand id reg with
    | none => (reg, none, none)
    | some (c, rest) =>
      let r := Command.result_received get_result c raw
      (rest, some r.1, r.2.2)
  | .errorResponse id err =>
    match popCommand id reg with
    | none => (reg, none, none)
    | some (c, rest) =>
      let r := Command.error_received c err
      (rest, some r.1, r.2)
  | .malformed _ => (reg, none, none)

/-- The single-flight invariant of `get_ws`: the number of physical connect
attempts in flight is 1 exactly while `is_opening_socket` is set (so it
never exceeds one), and an in-flight attempt always has an owning
caller. -/
def WSInv (s : WSClientConn) : Prop :=
  s.attemptsInFlight = (if s.is_opening_socket then 1 else 0) ∧
  (s.is_opening_socket = true → s.connector.isSome = true)

/-- Two concrete sub-commands (as built by __init__.py) used to evaluate
`MultiCall.get_result` on a concrete input. -/
def c3subs : List (SubCommand (Option (List Download))) :=
  [⟨"aria2.tellActive", TellActive.get_result⟩,
   ⟨"aria2.tellStopped", TellStopped.get_result⟩]

/-- Concrete per-call payloads for the two sub-commands of `c3subs`: one
download list with a single entry, one empty download list. -/
def c3vals : List JVal :=
  [JVal.arr [JVal.obj [("gid", JVal.str "g1"), ("status", JVal.str "active")]],
   JVal.arr []]

/-- A concrete download whose raw struct reports status `"active"`. -/
def c5dl : Download := ⟨JVal.obj [("gid", JVal.str "g1"), ("status", JVal.str "active")]⟩

/-! ## Helper lemmas -/

/-- Python `startswith` is monotone in the prefix: a host starting with `q`
also starts with every prefix `p` of `q`. -/
theorem pyStartsWith_mono (host p q : String) (hpq : p.data <+: q.data)
    (h : pyStartsWith host q = true) : pyStartsWith host p = true := by
  unfold pyStartsWith at h ⊢
  rw [ List.isPrefixOf_iff_prefix] at h ⊢
  exact hpq.trans h

/-- Two prefixes of the same host are comparable. -/
theorem pyStartsWith_comparable (host p q : String)
    (hp : pyStartsWith host p = true) (hq : pyStartsWith host q = true) :
    p.data <+: q.data ∨ q.data <+: p.data := by
  unfold pyStartsWith at hp hq
  rw [ List.isPrefixOf_iff_prefix] at hp hq
  exact List.prefix_or_prefix_of_prefix hp hq

/-- The payload returned by `get_downloads` is the concatenation of the
three decoded lists, whichever interval branch is taken. -/
theorem get_downloads_fst (active waiting stopped : List Download) :
    (get_downloads active waiting stopped).1 = active ++ waiting ++ stopped := by
  unfold get_downloads
  dsimp only
  split <;> rfl

/-- When every listener returns normally, `call_listeners` invokes all of
them, in registration order, and nothing propagates. -/
theorem call_listeners_all_ok (ls : List Listener) (args : String × String)
    (h : ∀ l ∈ ls, l.run args = Except.ok ()) :
    call_listeners ls args = (ls.map Listener.idx, none) := by
  induction ls with
  | nil => rfl
  | cons l tl ih =>
    have hl : l.run args = Except.ok () := h l (List.mem_cons_self l tl)
    have htl := ih (fun x hx => h x (List.mem_cons_of_mem l hx))
    simp [call_listeners, hl, htl]

/-- When the listeners before `bad` return normally and `bad` raises, the
iteration stops at `bad`: listeners after it are never invoked and the
exception propagates. -/
theorem call_listeners_raise (pre : List Listener) (bad : Listener)
    (post : List Listener) (args : String × String)
    (hpre : ∀ l ∈ pre, l.run args = Except.ok ())
    (e : String) (hbad : bad.run args = Except.error e) :
    call_listeners (pre ++ bad :: post) args
      = (pre.map Listener.idx ++ [bad.idx], some e) := by
  induction pre with
  | nil => simp [call_listeners, hbad]
  | cons p pre ih =>
    have hp : p.run args = Except.ok () := hpre p (by simp)
    have htl := ih (fun x hx => hpre x (by simp [hx]))
    simp [call_listeners, hp, htl]

/-- A script of non-cancellation endings leaves the receive loop running:
each pass reacquires the websocket and sleeps 3 seconds, and the
connection is never closed by the loop. -/
theorem c6_run_failures (script : List IterEnd)
    (h : ∀ e ∈ script, e ≠ IterEnd.cancelled) :
    listen_notifications_run script =
      ⟨true, false, script.length, List.replicate script.length 3⟩ := by
  induction script with
  | nil => rfl
  | cons e rest ih =>
    cases e with
    | cancelled => exact absurd rfl (h _ (by simp))
    | failure s =>
      have htl := ih (fun x hx => h x (by simp [hx]))
      simp [listen_notifications_run, htl, List.replicate]

/-- A cancellation after any number of failure passes closes the
connection and exits the loop, with no further sleep or reacquisition. -/
theorem c6_run_cancelled (pre : List IterEnd)
    (h : ∀ e ∈ pre, e ≠ IterEnd.cancelled) :
    listen_notifications_run (pre ++ [IterEnd.cancelled]) =
      ⟨false, true, pre.length + 1, List.replicate pre.length 3⟩ := by
  induction pre with
  | nil => rfl
  | cons e rest ih =>
    cases e with
    | cancelled => exact absurd rfl (h _ (by simp))
    | failure s =>
      have htl := ih (fun x hx => h x (by simp [hx]))
      simp [listen_notifications_run, htl, List.replicate]

/-- `WSInv` holds in the initial state. -/
theorem wsInv_init : WSInv WSClientConn.init := by
  constructor <;> simp [WSClientConn.init]

/-- `WSInv` is preserved by every step of the connection system. -/
theorem wsInv_step (s : WSClientConn) (e : WSEv) (h : WSInv s) :
    WSInv (WSClientConn.step s e).1 := by
  obtain ⟨h1, h2⟩ := h
  cases e with
  | arrive c =>
    simp only [WSClientConn.step]
    split
    · exact ⟨h1, h2⟩
    · split
      · next hno =>
        refine ⟨?_, ?_⟩ <;> simp_all [WSInv]
      · exact ⟨h1, h2⟩
  | connectOk hdl =>
    simp only [WSClientConn.step]
    split
    · next hop =>
      refine ⟨?_, ?_⟩ <;> simp_all
    · exact ⟨h1, h2⟩
  | connectTimeout => exact ⟨h1, h2⟩
  | socketClosed => exact ⟨h1, h2⟩

/-- Every reachable connection state satisfies the single-flight
invariant. -/
theorem wsInv_reachable (s : WSClientConn) (h : WSReachable s) : WSInv s := by
  induction h with
  | init => exact wsInv_init
  | step s e _ ih => exact wsInv_step s e ih

/-- A registry without the id yields no entry to pop. -/
theorem popCommand_none_of_notMem {T : Type} (id : String)
    (l : List (String × CmdState T)) (h : id ∉ l.map Prod.fst) :
    popCommand id l = none := by
  induction l with
  | nil => rfl
  | cons p rest ih =>
    obtain ⟨i, c⟩ := p
    have hi : ¬ i = id := by
      intro he
      exact h (by simp [he])
    have hrest : id ∉ rest.map Prod.fst := fun hx => h (by simp [hx])
    simp [popCommand, hi, ih hrest]

/-- Popping an id from a registry with distinct ids removes it for good:
the remaining registry has no entry under that id. -/
theorem popCommand_not_in_rest {T : Type} (id : String)
    (l rest : List (String × CmdState T)) (c : CmdState T)
    (hpop : popCommand id l = some (c, rest))
    (hnodup : (l.map Prod.fst).Nodup) :
    popCommand id rest = none := by
  induction l generalizing rest c with
  | nil => simp [popCommand] at hpop
  | cons p tl ih =>
    obtain ⟨i, c1⟩ := p
    rw [List.map_cons, List.nodup_cons] at hnodup
    by_cases hi : i = id
    · subst hi
      simp [popCommand] at hpop
      obtain ⟨_, ht⟩ := hpop
      subst ht
      exact popCommand_none_of_notMem _ tl hnodup.1
    · have hbeq : (i == id) = false := by simp [hi]
      rcases hp : popCommand (T := T) id tl with _ | pr
      · simp [popCommand, hbeq, hp] at hpop
      · obtain ⟨c0, rest0⟩ := pr
        simp [popCommand, hbeq, hp] at hpop
        obtain ⟨_, ht⟩ := hpop
        subst ht
        have hnone := ih rest0 c0 hp hnodup.2
        simp [popCommand, hbeq, hnone]

/-! ## Claim theorems -/

/-- C1 (amended): after the receive loop processes the matching frame for a
pending command, the registry no longer contains the command's id and a
repeated frame for that id is discarded; exactly one resolution reaches
the caller for a success response and for an error response with code 1;
an error response with any other code pops the registry entry without
resolving the caller (the base decoder ignores it), so no resolution ever
reaches that caller. -/
theorem c1_claim {T : Type} (get_result : JVal → T)
    (reg rest : List (String × CmdState T)) (id : String) (c : CmdState T)
    (raw : JVal) (err : JErr)
    (hpop : popCommand id reg = some (c, rest))
    (hnodup : (reg.map Prod.fst).Nodup)
    (hpend : c.result_future = some FutureState.pending) :
    (handle_frame get_result reg (Frame.response id raw)
        = (rest, some { c with result_future := some (FutureState.doneOk (get_result raw)) },
            none)) ∧
    (err.code = 1 → handle_frame get_result reg (Frame.errorResponse id err)
        = (rest, some { c with result_future := some (FutureState.doneErr err.message) },
            none)) ∧
    (err.code ≠ 1 → handle_frame get_result reg (Frame.errorResponse id err)
        = (rest, some c, none)) ∧
    popCommand id rest = none ∧
    (∀ raw2 : JVal, handle_frame get_result rest (Frame.response id raw2)
        = (rest, none, none)) := by
  have hrest := popCommand_not_in_rest id reg rest c hpop hnodup
  refine ⟨?_, ?_, ?_, hrest, ?_⟩
  · simp [handle_frame, hpop, Command.result_received, hpend]
  · intro h1
    simp [handle_frame, hpop, Command.error_received, Command.raise_except, h1, hpend]
  · intro h1
    simp [handle_frame, hpop, Command.error_received, h1]
  · intro raw2
    simp [handle_frame, hrest]

/-- C1 counterexample: a pending command receives an error response with
code 2; the registry entry is removed (first conjunct) yet the command's
future is still pending (second conjunct) — no resolution, success or
error, ever reaches the caller, contradicting the claim. -/
theorem c1_counterexample :
    (handle_frame (T := Bool) (fun _ => true)
        [("id1", ⟨"id1", some FutureState.pending⟩)]
        (Frame.errorResponse "id1" ⟨2, "boom"⟩)).1 = [] ∧
    (handle_frame (T := Bool) (fun _ => true)
        [("id1", ⟨"id1", some FutureState.pending⟩)]
        (Frame.errorResponse "id1" ⟨2, "boom"⟩)).2.1
      = some ⟨"id1", some FutureState.pending⟩ ∧
    some (FutureState.pending (T := Bool)) ≠ some (FutureState.doneOk true) ∧
    some (FutureState.pending (T := Bool)) ≠ some (FutureState.doneErr "boom") :=
  ⟨by rfl, by rfl, by decide, by decide⟩

/-- C1 witness: a concrete success response resolves the single pending
command and empties the registry. -/
theorem c1_witness :
    (handle_frame (T := Bool) (fun _ => true)
        [("a", ⟨"a", some FutureState.pending⟩)] (Frame.response "a" JVal.null)
      = ([], some ⟨"a", some (FutureState.doneOk true)⟩, none)) ∧
    popCommand (T := Bool) "a" [] = none :=
  ⟨(c1_claim (fun _ => true) [("a", ⟨"a", some FutureState.pending⟩)] []
      "a" ⟨"a", some FutureState.pending⟩ JVal.null ⟨1, "x"⟩ (by rfl) (by simp) rfl).1,
   (c1_claim (fun _ => true) [("a", ⟨"a", some FutureState.pending⟩)] []
      "a" ⟨"a", some FutureState.pending⟩ JVal.null ⟨1, "x"⟩ (by rfl) (by simp) rfl).2.2.2.1⟩

/-- C2: in every reachable state of the `get_ws` system at most one
physical connect attempt is in flight, and when an in-flight attempt
succeeds with handle `hdl`, the connecting caller and every queued waiter
are resolved with that same handle (and the stored socket becomes
`hdl`). -/
theorem c2_claim :
    (∀ s : WSClientConn, WSReachable s → s.attemptsInFlight ≤ 1) ∧
    (∀ (s : WSClientConn) (hdl : Handle), WSReachable s → s.is_opening_socket = true →
      ∃ c0 : CallerId, s.connector = some c0 ∧
        (WSClientConn.step s (WSEv.connectOk hdl)).2
          = (c0, hdl) :: s.waiting_opening_socket_futures.map (fun c => (c, hdl)) ∧
        (∀ p ∈ (WSClientConn.step s (WSEv.connectOk hdl)).2, p.2 = hdl) ∧
        (WSClientConn.step s (WSEv.connectOk hdl)).1.ws = some hdl) := by
  constructor
  · intro s hs
    obtain ⟨h1, _⟩ := wsInv_reachable s hs
    rw [h1]
    split <;> simp
  · intro s hdl hs hop
    obtain ⟨h1, h2⟩ := wsInv_reachable s hs
    obtain ⟨c0, hc0⟩ := Option.isSome_iff_exists.mp (h2 hop)
    have hres : (WSClientConn.step s (WSEv.connectOk hdl)).2
        = (c0, hdl) :: s.waiting_opening_socket_futures.map (fun c => (c, hdl)) := by
      simp [WSClientConn.step, hop, hc0]
    refine ⟨c0, hc0, hres, ?_, ?_⟩
    · intro p hp
      rw [hres] at hp
      rcases List.mem_cons.mp hp with h | h
      · rw [h]
      · obtain ⟨a, _, ha2⟩ := List.mem_map.mp h
        rw [← ha2]
    · simp [WSClientConn.step, hop]

/-- C2 witness: one caller arrives at the fresh client and the attempt it
starts succeeds with handle 42 — the in-flight count stays at most 1 and
the caller is resolved with exactly that handle. -/
theorem c2_witness :
    (WSClientConn.step WSClientConn.init (WSEv.arrive 0)).1.attemptsInFlight ≤ 1 ∧
    (WSClientConn.step (WSClientConn.step WSClientConn.init (WSEv.arrive 0)).1
        (WSEv.connectOk 42)).2 = [(0, 42)] := by
  have hr : WSReachable (WSClientConn.step WSClientConn.init (WSEv.arrive 0)).1 :=
    WSReachable.step WSClientConn.init (WSEv.arrive 0) WSReachable.init
  refine ⟨c2_claim.1 _ hr, ?_⟩
  obtain ⟨c0, hc0, hres, _, _⟩ := c2_claim.2 _ 42 hr rfl
  have hc : c0 = 0 := by
    have h0 : some (0 : CallerId) = some c0 := hc0
    exact (Option.some.inj h0).symm
  rw [hres, hc]
  rfl

/-- C3: a MultiCall over N sub-commands, decoding a raw multicall result of
N entries (each in the aria2 success shape, a one-element array), yields
exactly N results, the i-th being the i-th sub-command's own decoder
applied to the i-th entry's payload, in the original order; the empty
MultiCall decodes the empty raw result to the empty list. -/
theorem c3_claim {R : Type} (subs : List (SubCommand R)) (vals : List JVal)
    (hlen : subs.length = vals.length) :
    MultiCall.get_result subs (vals.map (fun v => JVal.arr [v]))
      = some (List.zipWith (fun c v => c.get_result v) subs vals) ∧
    (List.zipWith (fun (c : SubCommand R) v => c.get_result v) subs vals).length
      = subs.length ∧
    MultiCall.get_result ([] : List (SubCommand R)) [] = some [] := by
  refine ⟨?_, ?_, rfl⟩
  · induction subs generalizing vals with
    | nil =>
      cases vals with
      | nil => rfl
      | cons v vs => simp at hlen
    | cons c cs ih =>
      cases vals with
      | nil => simp at hlen
      | cons v vs =>
        have h2 : cs.length = vs.length := by simpa using hlen
        simp [MultiCall.get_result, JVal.index0, ih vs h2]
  · rw [List.length_zipWith, hlen, Nat.min_self, ← hlen]

/-- C3 witness: a concrete two-command MultiCall decodes entry 0 with the
first sub-command's decoder and entry 1 with the second's, in order, and
the empty MultiCall decodes to the empty list. -/
theorem c3_witness :
    MultiCall.get_result c3subs (c3vals.map (fun v => JVal.arr [v]))
      = some [some [Download.mk
          (JVal.obj [("gid", JVal.str "g1"), ("status", JVal.str "active")])], some []] ∧
    (List.zipWith (fun (c : SubCommand (Option (List Download))) v => c.get_result v)
      c3subs c3vals).length = c3subs.length ∧
    MultiCall.get_result ([] : List (SubCommand (Option (List Download)))) []
      = some [] :=
  c3_claim c3subs c3vals rfl

/-- C4 (code bug evidence): the notification table maps start→active,
pause→paused, complete→complete, error→error and drops unknown methods,
and the claimed two-notification sequence yields ["active", "complete"];
but the stop event is mapped to the misspelled status "stoped", which
differs from the const.py constant STATE_STOPPED = "stopped" that the
claim (and the spec table) state. -/
theorem c4_claim :
    handle_notification ⟨"aria2.onDownloadStart", "g"⟩ = some ("g", "active") ∧
    handle_notification ⟨"aria2.onDownloadPause", "g"⟩ = some ("g", "paused") ∧
    handle_notification ⟨"aria2.onDownloadComplete", "g"⟩ = some ("g", "complete") ∧
    handle_notification ⟨"aria2.onDownloadError", "g"⟩ = some ("g", "error") ∧
    handle_notification ⟨"aria2.onBtDownloadComplete", "g"⟩ = none ∧
    handle_notification ⟨"aria2.onDownloadStop", "g1"⟩ = some ("g1", "stoped") ∧
    ("stoped" : String) ≠ STATE_STOPPED ∧
    process_notifications
      [⟨"aria2.onDownloadStart", "g1"⟩, ⟨"aria2.onDownloadComplete", "g1"⟩]
      = [("g1", "active"), ("g1", "complete")] :=
  ⟨rfl, rfl, rfl, rfl, rfl, rfl, by decide, rfl⟩

/-- C5: after a successful refresh cycle, the coordinator's next interval
is the fast tier (3 s) when the returned payload contains at least one
download with status "active", and the slow tier (30 s) when it contains
none. -/
theorem c5_claim (active waiting stopped : List Download) :
    ((∃ d ∈ (get_downloads active waiting stopped).1, d.status = some STATE_ACTIVE) →
      (get_downloads active waiting stopped).2.update_interval
        = COORDINATOR_FAST_UPDATE_SECONDS) ∧
    ((∀ d ∈ (get_downloads active waiting stopped).1, d.status ≠ some STATE_ACTIVE) →
      (get_downloads active waiting stopped).2.update_interval
        = COORDINATOR_SLOW_UPDATE_SECONDS) := by
  constructor
  · rintro ⟨d, hd, hstat⟩
    rw [get_downloads_fst] at hd
    have hmem : d ∈ (active ++ waiting ++ stopped).filter
        (fun d => d.status == some STATE_ACTIVE) :=
      List.mem_filter.mpr ⟨hd, by simp [hstat]⟩
    have hpos := List.length_pos_of_mem hmem
    unfold get_downloads
    dsimp only
    rw [if_pos hpos]
  · intro hall
    have hnil : (active ++ waiting ++ stopped).filter
        (fun d => d.status == some STATE_ACTIVE) = [] := by
      rw [List.filter_eq_nil_iff]
      intro d hd
      have hne := hall d (by rw [get_downloads_fst]; exact hd)
      simp [hne]
    unfold get_downloads
    dsimp only
    rw [hnil]
    rfl

/-- C5 witness: a payload with one active download yields the 3-second
interval. -/
theorem c5_witness :
    (get_downloads [c5dl] [] []).2.update_interval = COORDINATOR_FAST_UPDATE_SECONDS :=
  (c5_claim [c5dl] [] []).1 ⟨c5dl, by rw [get_downloads_fst]; simp, by rfl⟩

/-- C6: over any finite script of loop-pass endings, non-cancellation
exceptions never terminate the receive loop — each such pass sleeps the
fixed 3-second retry delay and reacquires the connection — while a
cancellation (after any number of failures) closes the current connection
and exits the loop. -/
theorem c6_claim (script : List IterEnd) :
    ((∀ e ∈ script, e ≠ IterEnd.cancelled) →
      (listen_notifications_run script).running = true ∧
      (listen_notifications_run script).closedConnection = false ∧
      (listen_notifications_run script).sleeps
        = List.replicate script.length WS_RETRY_DELAY_SECONDS ∧
      (listen_notifications_run script).acquires = script.length) ∧
    (∀ pre, script = pre ++ [IterEnd.cancelled] →
      (∀ e ∈ pre, e ≠ IterEnd.cancelled) →
      (listen_notifications_run script).running = false ∧
      (listen_notifications_run script).closedConnection = true) := by
  constructor
  · intro h
    rw [c6_run_failures script h]
    exact ⟨rfl, rfl, rfl, rfl⟩
  · intro pre hs h
    subst hs
    rw [c6_run_cancelled pre h]
    exact ⟨rfl, rfl⟩

/-- C6 witness: one stream failure leaves the loop running after a single
3-second sleep and reacquisition; a failure followed by cancellation
closes the connection and stops the loop. -/
theorem c6_witness :
    ((listen_notifications_run [IterEnd.failure "connection reset"]).running = true ∧
      (listen_notifications_run [IterEnd.failure "connection reset"]).closedConnection
        = false ∧
      (listen_notifications_run [IterEnd.failure "connection reset"]).sleeps
        = List.replicate 1 WS_RETRY_DELAY_SECONDS ∧
      (listen_notifications_run [IterEnd.failure "connection reset"]).acquires = 1) ∧
    ((listen_notifications_run
        [IterEnd.failure "connection reset", IterEnd.cancelled]).running = false ∧
      (listen_notifications_run
        [IterEnd.failure "connection reset", IterEnd.cancelled]).closedConnection
        = true) :=
  ⟨(c6_claim [IterEnd.failure "connection reset"]).1 (by decide),
   (c6_claim [IterEnd.failure "connection reset", IterEnd.cancelled]).2
     [IterEnd.failure "connection reset"] rfl (by decide)⟩

/-- C7 (amended): only a raw remote error object with code 1 is converted
into a typed failure carrying the error message; for those, when the
command's pending-result handle exists and is pending the failure is set
on that handle alone, with nothing raised into the receive loop; when the
handle is cancelled the failure is raised to the invoker instead; an
error object with any other code is ignored entirely and no failure
reaches the caller. -/
theorem c7_claim {T : Type} (c : CmdState T) (err : JErr) :
    (err.code = 1 → c.result_future = some FutureState.pending →
      Command.error_received c err
        = ({ c with result_future := some (FutureState.doneErr err.message) }, none)) ∧
    (err.code = 1 → c.result_future = some FutureState.cancelled →
      Command.error_received c err = (c, some (PyExc.ariaError err.message))) ∧
    (err.code ≠ 1 → Command.error_received c err = (c, none)) := by
  refine ⟨?_, ?_, ?_⟩
  · intro h1 h2
    simp [Command.error_received, Command.raise_except, h1, h2]
  · intro h1 h2
    simp [Command.error_received, Command.raise_except, h1, h2]
  · intro h1
    simp [Command.error_received, h1]

/-- C7 counterexample: a command whose handle exists and is pending (so
not cancelled) receives a raw error object with code 2 — the error decoder
delivers nothing: the command state is unchanged and no typed failure is
produced, contradicting "for every raw remote error object". -/
theorem c7_counterexample :
    Command.error_received (T := Bool) ⟨"id1", some FutureState.pending⟩ ⟨2, "denied"⟩
      = (⟨"id1", some FutureState.pending⟩, none) ∧
    some (FutureState.pending (T := Bool)) ≠ some (FutureState.doneErr "denied") :=
  ⟨by rfl, by decide⟩

/-- C7 witness: a code-1 error object is delivered as a typed failure to
the pending handle of the concrete command, with nothing raised into the
loop. -/
theorem c7_witness :
    Command.error_received (T := Bool) ⟨"i1", some FutureState.pending⟩ ⟨1, "unauthorized"⟩
      = (⟨"i1", some (FutureState.doneErr "unauthorized")⟩, none) :=
  (c7_claim ⟨"i1", some FutureState.pending⟩ ⟨1, "unauthorized"⟩).1 rfl rfl

/-- C8 (amended): for every host that carries a full `http://` or
`https://` scheme prefix, or does not start with the characters "http" at
all, the derived URL equals the spec's normalization (existing scheme
mapped to ws/wss, otherwise the secure flag picks the scheme, the fixed
`:<port>/jsonrpc` path appended); both quoted examples hold. -/
theorem c8_claim :
    (∀ (host port : String) (secure : Bool),
      (pyStartsWith host "http" = false ∨ pyStartsWith host "http://" = true ∨
        pyStartsWith host "https://" = true) →
      build_ws_url host port secure = build_ws_url_spec host port secure) ∧
    build_ws_url "https://example.com" "6800" false = "wss://example.com:6800/jsonrpc" ∧
    build_ws_url "example.com" "6800" false = "ws://example.com:6800/jsonrpc" := by
  refine ⟨?_, by rfl, by rfl⟩
  intro host port secure h
  rcases h with h | h | h
  · have h5 : pyStartsWith host "https" = false := by
      cases hh : pyStartsWith host "https" with
      | false => rfl
      | true =>
        exact absurd (pyStartsWith_mono host "http" "https" (by decide) hh) (by simp [h])
    have h7 : pyStartsWith host "http://" = false := by
      cases hh : pyStartsWith host "http://" with
      | false => rfl
      | true =>
        exact absurd (pyStartsWith_mono host "http" "http://" (by decide) hh) (by simp [h])
    have h8 : pyStartsWith host "https://" = false := by
      cases hh : pyStartsWith host "https://" with
      | false => rfl
      | true =>
        exact absurd (pyStartsWith_mono host "http" "https://" (by decide) hh) (by simp [h])
    simp [build_ws_url, build_ws_url_spec, h5, h, h7, h8]
  · have h4 : pyStartsWith host "http" = true :=
      pyStartsWith_mono host "http" "http://" (by decide) h
    have h5 : pyStartsWith host "https" = false := by
      cases hh : pyStartsWith host "https" with
      | false => rfl
      | true =>
        rcases pyStartsWith_comparable host "https" "http://" hh h with hc | hc
        · exact absurd hc (by decide)
        · exact absurd hc (by decide)
    have h8 : pyStartsWith host "https://" = false := by
      cases hh : pyStartsWith host "https://" with
      | false => rfl
      | true =>
        rcases pyStartsWith_comparable host "https://" "http://" hh h with hc | hc
        · exact absurd hc (by decide)
        · exact absurd hc (by decide)
    simp [build_ws_url, build_ws_url_spec, h4, h5, h8, h]
  · have h5 : pyStartsWith host "https" = true :=
      pyStartsWith_mono host "https" "https://" (by decide) h
    simp [build_ws_url, build_ws_url_spec, h5, h]

/-- C8 counterexample: the host "httphost" has no scheme prefix, yet the
source treats a bare "http" character prefix as a scheme and slices seven
characters off, producing "ws://t:1/jsonrpc" instead of the claimed
"ws://httphost:1/jsonrpc". -/
theorem c8_counterexample :
    build_ws_url "httphost" "1" false = "ws://t:1/jsonrpc" ∧
    build_ws_url_spec "httphost" "1" false = "ws://httphost:1/jsonrpc" ∧
    build_ws_url "httphost" "1" false ≠ build_ws_url_spec "httphost" "1" false :=
  ⟨by rfl, by rfl, by decide⟩

/-- C8 witness: the schemeless host of the claim's second example agrees
with the spec normalization. -/
theorem c8_witness :
    build_ws_url "example.com" "6800" false = build_ws_url_spec "example.com" "6800" false :=
  c8_claim.1 "example.com" "6800" false (Or.inl (by decide))

/-- C9 (amended): listeners are invoked sequentially in registration
order; every listener receives the normalized pair when no earlier
listener raises, but invocations are not independent: a raising listener
stops the iteration, the remaining listeners are not invoked for that
event, and the exception propagates to the receive loop. -/
theorem c9_claim (ls : List Listener) (args : String × String) :
    ((∀ l ∈ ls, l.run args = Except.ok ()) →
      call_listeners ls args = (ls.map Listener.idx, none)) ∧
    (∀ pre bad post, ls = pre ++ bad :: post →
      (∀ l ∈ pre, l.run args = Except.ok ()) →
      ∀ e, bad.run args = Except.error e →
      call_listeners ls args = (pre.map Listener.idx ++ [bad.idx], some e)) := by
  constructor
  · exact call_listeners_all_ok ls args
  · intro pre bad post hls hpre e hbad
    subst hls
    exact call_listeners_raise pre bad post args hpre e hbad

/-- C9 counterexample: with two registered listeners of which the first
raises, the second never receives the pair — one listener's exception does
prevent delivery to the remaining listeners. -/
theorem c9_counterexample :
    call_listeners [⟨0, fun _ => Except.error "boom"⟩, ⟨1, fun _ => Except.ok ()⟩]
        ("g1", "active") = ([0], some "boom") ∧
    1 ∉ (call_listeners [⟨0, fun _ => Except.error "boom"⟩, ⟨1, fun _ => Except.ok ()⟩]
        ("g1", "active")).1 :=
  ⟨by rfl, by decide⟩

/-- C9 witness: a single well-behaved listener receives the dispatched
pair and nothing propagates. -/
theorem c9_witness :
    call_listeners [⟨5, fun _ => Except.ok ()⟩] ("g1", "active") = ([5], none) :=
  (c9_claim [⟨5, fun _ => Except.ok ()⟩] ("g1", "active")).1
    (fun l hl => by
      rw [List.mem_singleton] at hl
      subst hl
      rfl)

/-- C10: a successful raw result resolves a pending ChangeGlobalOptions
command to the boolean `raw == "OK"` — `true` exactly when the raw result
is the string "OK" — and a remote error envelope of any code resolves the
command to `false` through the normal result path, with no exception
delivered to the caller. -/
theorem c10_claim (raw : JVal) (c : CmdState Bool)
    (h : c.result_future = some FutureState.pending) :
    (Command.result_received ChangeGlobalOptions.get_result c raw).1.result_future
        = some (FutureState.doneOk (ChangeGlobalOptions.get_result raw)) ∧
    (ChangeGlobalOptions.get_result raw = true ↔ raw = JVal.str "OK") ∧
    (∀ err : JErr, ChangeGlobalOptions.error_received c err
        = ({ c with result_future := some (FutureState.doneOk false) }, false, none)) := by
  refine ⟨?_, ?_, ?_⟩
  · simp [Command.result_received, h]
  · cases raw <;> simp [ChangeGlobalOptions.get_result]
  · intro err
    simp [ChangeGlobalOptions.error_received, Command.result_received, h,
      ChangeGlobalOptions.get_result]

/-- C10 witness: the raw result "OK" resolves a concrete pending command to
true, and a concrete error envelope resolves it to false with no
exception. -/
theorem c10_witness :
    (Command.result_received ChangeGlobalOptions.get_result
        ⟨"cmd1", some FutureState.pending⟩ (JVal.str "OK")).1.result_future
      = some (FutureState.doneOk (ChangeGlobalOptions.get_result (JVal.str "OK"))) ∧
    ChangeGlobalOptions.error_received ⟨"cmd1", some FutureState.pending⟩ ⟨1, "denied"⟩
      = (⟨"cmd1", some (FutureState.doneOk false)⟩, false, none) :=
  ⟨(c10_claim (JVal.str "OK") ⟨"cmd1", some FutureState.pending⟩ rfl).1,
   (c10_claim (JVal.str "OK") ⟨"cmd1", some FutureState.pending⟩ rfl).2.2 ⟨1, "denied"⟩⟩
